import Mathlib

/-!
Verification of the MCP movies/tasks CRUD adapter (src/mcp.py).

The development shallowly embeds the Python module: JSON values are an
inductive type, the HTTP transport is an explicit function from requests to
outcomes (a response or a raised exception), and each tool is a pure
function of the transport.  Machine-level concerns that Python delegates to
libraries (float formatting, the str() of arbitrary objects) are carried as
opaque string literals, since the program only forwards them.
-/

namespace BasicMcp

/-- A parsed JSON value, as produced by resp.json().  Numbers are carried as
their literal token (Python round-trips int/float literals; the adapter never
computes on them). -/
inductive Json where
  | null
  | bool (b : Bool)
  | num (lit : String)
  | str (s : String)
  | arr (elts : List Json)
  | obj (fields : List (String × Json))

/-- A JSON object body, i.e. a Python dict of string keys (insertion ordered). -/
abbrev Jobj := List (String × Json)

/-- The literal token of a Python float argument (e.g. "8.6"); the adapter
forwards ratings opaquely, so a float is modelled by its JSON literal. -/
abbrev FloatLit := String

/-- An HTTP request as handed to httpx: method, full URL, optional JSON body,
headers, and timeout.  jsonResult of the response models what resp.json()
would return (none models a parse exception). -/
structure Request where
  method : String
  url : String
  json_body : Option Jobj
  headers : List (String × String)
  timeout : Nat

/-- An HTTP response: status code, raw body content, and the outcome of
attempting to parse the content as JSON (none when resp.json() raises). -/
structure HttpResponse where
  status_code : Nat
  content : String
  jsonResult : Option Json

/-- What the underlying transport does with one request: deliver a response,
or raise an exception carrying the message str(e). -/
inductive TransportResult where
  | ok (resp : HttpResponse)
  | raise (e : String)

/-- The environment: one transport outcome per request. -/
abbrev Transport := Request → TransportResult

/-- Base URL of the FastAPI Movies API (the os.getenv default; the env
override is external configuration). -/
def MOVIE_API_BASE : String := "https://basicrud95019501.onrender.com"

/-- Default headers for JSON APIs. -/
def JSON_HEADERS : List (String × String) :=
  [("Accept", "application/json"), ("Content-Type", "application/json")]

/-- The request that api_request hands to httpx: upper-cased method, base
URL plus path, the JSON body, the fixed JSON headers, and the timeout. -/
def mkRequest (method : String) (path : String) (json_body : Option Jobj)
    (timeout : Nat) : Request :=
  { method := method.toUpper
    url := MOVIE_API_BASE ++ path
    json_body := json_body
    headers := JSON_HEADERS
    timeout := timeout }

/-- The "body" entry of the transport-error payload: the submitted JSON body,
or JSON null when none was submitted (Python serializes None as null). -/
def jsonOfBody : Option Jobj → Json
  | none => Json.null
  | some o => Json.obj o

/-- The HTTP helper api_request: make one request and return
(status_code, json_or_none).  Status 204 or an empty body yields body none;
a body that fails to parse as JSON also yields body none; any exception from
the transport yields status 0 with a diagnostic payload. -/
def api_request (tr : Transport) (method : String) (path : String)
    (json_body : Option Jobj := none) (timeout : Nat := 30) :
    Nat × Option Json :=
  match tr (mkRequest method path json_body timeout) with
  | .ok resp =>
      if resp.status_code = 204 ∨ resp.content = "" then
        (resp.status_code, none)
      else
        match resp.jsonResult with
        | some j => (resp.status_code, j)
        | none => (resp.status_code, none)
  | .raise e =>
      (0, some (Json.obj [("error", Json.str e),
                          ("url", Json.str (MOVIE_API_BASE ++ path)),
                          ("method", Json.str method),
                          ("body", jsonOfBody json_body)]))

/-- n spaces, the indentation unit used by json.dumps(indent=2). -/
def indentStr (lvl : Nat) : String := String.mk (List.replicate (2 * lvl) ' ')

/-- One hexadecimal digit, lower case. -/
def hexDigit (n : Nat) : Char :=
  if n < 10 then Char.ofNat (48 + n) else Char.ofNat (87 + n)

/-- Four hexadecimal digits, as in a JSON \u escape. -/
def hex4 (n : Nat) : String :=
  String.mk [hexDigit (n / 4096 % 16), hexDigit (n / 256 % 16),
             hexDigit (n / 16 % 16), hexDigit (n % 16)]

/-- JSON string escaping as json.dumps performs it with ensure_ascii=False:
quote, backslash and control characters are escaped, everything else
(including non-ASCII) is emitted literally. -/
def escChar (c : Char) : String :=
  if c = '"' then "\\\""
  else if c = '\\' then "\\\\"
  else if c = '\n' then "\\n"
  else if c = '\t' then "\\t"
  else if c = '\r' then "\\r"
  else if c.toNat = 8 then "\\b"
  else if c.toNat = 12 then "\\f"
  else if c.toNat < 32 then "\\u" ++ hex4 c.toNat
  else String.singleton c

/-- A JSON string literal with surrounding quotes. -/
def quoteStr (s : String) : String :=
  "\"" ++ String.join (s.data.map escChar) ++ "\""

mutual

/-- json.dumps(·, indent=2, ensure_ascii=False) of a value nested at depth
lvl: containers open on their own line, members are indented two further
spaces, and the closing bracket returns to the container's indentation. -/
def dumpsVal (lvl : Nat) : Json → String
  | .null => "null"
  | .bool true => "true"
  | .bool false => "false"
  | .num lit => lit
  | .str s => quoteStr s
  | .arr [] => "[]"
  | .arr (x :: xs) =>
      "[\n" ++ String.intercalate ",\n" (dumpsItems (lvl + 1) (x :: xs))
        ++ "\n" ++ indentStr lvl ++ "]"
  | .obj [] => "\x7b\x7d"
  | .obj (kv :: kvs) =>
      "\x7b\n" ++ String.intercalate ",\n" (dumpsFields (lvl + 1) (kv :: kvs))
        ++ "\n" ++ indentStr lvl ++ "\x7d"

/-- The rendered, indented members of a JSON array. -/
def dumpsItems (lvl : Nat) : List Json → List String
  | [] => []
  | x :: xs => (indentStr lvl ++ dumpsVal lvl x) :: dumpsItems lvl xs

/-- The rendered, indented key: value members of a JSON object. -/
def dumpsFields (lvl : Nat) : List (String × Json) → List String
  | [] => []
  | (k, v) :: kvs =>
      (indentStr lvl ++ quoteStr k ++ ": " ++ dumpsVal lvl v)
        :: dumpsFields lvl kvs

end

/-- A Python value as seen by pretty: either a value of parsed-JSON shape
(None or a JSON value — exactly the values json.dumps serializes, and the
only shape the tools ever pass), or a non-serializable object carried by the
string str() renders it to. -/
inductive PyVal where
  | parsed (data : Option Json)
  | nonSerializable (strForm : String)

/-- pretty: json.dumps(data, indent=2, ensure_ascii=False), falling back to
str(data) when serialization raises.  json.dumps succeeds exactly on the
parsed-JSON shaped values (serializing Python None as null), so the except
branch returns str(data) precisely for the non-serializable ones. -/
def pretty : PyVal → String
  | .parsed none => dumpsVal 0 Json.null
  | .parsed (some j) => dumpsVal 0 j
  | .nonSerializable strForm => strForm

example : pretty (.parsed (some (Json.obj [("id", Json.num "3"), ("título", Json.str "café")])))
    = "\x7b\n  \"id\": 3,\n  \"título\": \"café\"\n\x7d" := by rfl

example : pretty (.parsed none) = "null" := by rfl

/-! ## Movie tools (src/mcp.py lines 67-155) -/

/-- Tool get_movies: GET /movies and render the outcome. -/
def get_movies (tr : Transport) : String :=
  let r := api_request tr "GET" "/movies"
  if r.1 = 0 then
    "Transport error while calling /movies:\n" ++ pretty (.parsed r.2)
  else if 400 ≤ r.1 then
    "Error " ++ toString r.1 ++ " from /movies:\n" ++ pretty (.parsed r.2)
  else
    pretty (.parsed r.2)

/-- Tool get_movie: GET /movies/(movie_id) and render the outcome. -/
def get_movie (tr : Transport) (movie_id : Int) : String :=
  let r := api_request tr "GET" ("/movies/" ++ toString movie_id)
  if r.1 = 0 then
    "Transport error while calling /movies/" ++ toString movie_id ++ ":\n"
      ++ pretty (.parsed r.2)
  else if r.1 = 404 then
    "Movie " ++ toString movie_id ++ " not found."
  else if 400 ≤ r.1 then
    "Error " ++ toString r.1 ++ " from /movies/" ++ toString movie_id ++ ":\n"
      ++ pretty (.parsed r.2)
  else
    pretty (.parsed r.2)

/-- Tool create_movie: POST /movies with body of exactly title, year, rating. -/
def create_movie (tr : Transport) (title : String) (year : Int)
    (rating : FloatLit) : String :=
  let body : Jobj := [("title", Json.str title), ("year", Json.num (toString year)),
                      ("rating", Json.num rating)]
  let r := api_request tr "POST" "/movies" (some body)
  if r.1 = 0 then
    "Transport error while POST /movies:\n" ++ pretty (.parsed r.2)
  else if 400 ≤ r.1 then
    "Error " ++ toString r.1 ++ " creating movie:\n" ++ pretty (.parsed r.2)
  else
    "Movie created:\n" ++ pretty (.parsed r.2)

/-- Tool update_movie: PUT /movies/(movie_id) with body title, year, rating. -/
def update_movie (tr : Transport) (movie_id : Int) (title : String) (year : Int)
    (rating : FloatLit) : String :=
  let body : Jobj := [("title", Json.str title), ("year", Json.num (toString year)),
                      ("rating", Json.num rating)]
  let r := api_request tr "PUT" ("/movies/" ++ toString movie_id) (some body)
  if r.1 = 0 then
    "Transport error while PUT /movies/" ++ toString movie_id ++ ":\n"
      ++ pretty (.parsed r.2)
  else if r.1 = 404 then
    "Movie " ++ toString movie_id ++ " not found."
  else if 400 ≤ r.1 then
    "Error " ++ toString r.1 ++ " updating movie " ++ toString movie_id ++ ":\n"
      ++ pretty (.parsed r.2)
  else
    "Movie updated:\n" ++ pretty (.parsed r.2)

/-- Tool delete_movie: DELETE /movies/(movie_id) and render the outcome. -/
def delete_movie (tr : Transport) (movie_id : Int) : String :=
  let r := api_request tr "DELETE" ("/movies/" ++ toString movie_id)
  if r.1 = 0 then
    "Transport error while DELETE /movies/" ++ toString movie_id ++ ":\n"
      ++ pretty (.parsed r.2)
  else if r.1 = 404 then
    "Movie " ++ toString movie_id ++ " not found."
  else if 400 ≤ r.1 then
    "Error " ++ toString r.1 ++ " deleting movie " ++ toString movie_id ++ ":\n"
      ++ pretty (.parsed r.2)
  else
    "Movie " ++ toString movie_id ++ " deleted (status " ++ toString r.1 ++ ")."

/-! ## Task tools

The task half of the tool surface lives in a repository file that is not
under src/ (src/ holds only the movies module).  The spec states the two
resource kinds are exposed by near-duplicate modules that are structurally
identical CRUD adapters differing only in resource name, base path and
attribute shape, so the task definitions below mirror the movie module
verbatim with Movie/movies replaced by Task/tasks and attributes
(title, done). -/

/-- Modelled from the spec: the tasks module's base URL — an env-overridable
per-resource-kind configuration with a hardcoded default; the tasks default
itself is not spelled out, so the movies default is reused. -/
def TASK_API_BASE : String := "https://basicrud95019501.onrender.com"

/-- Modelled from the spec: the request the tasks module's HTTP helper hands
to httpx, mirroring mkRequest with the tasks base URL. -/
def task_mkRequest (method : String) (path : String) (json_body : Option Jobj)
    (timeout : Nat) : Request :=
  { method := method.toUpper
    url := TASK_API_BASE ++ path
    json_body := json_body
    headers := JSON_HEADERS
    timeout := timeout }

/-- Modelled from the spec: the tasks module's HTTP helper, a near-duplicate
of api_request against the tasks base URL. -/
def task_api_request (tr : Transport) (method : String) (path : String)
    (json_body : Option Jobj := none) (timeout : Nat := 30) :
    Nat × Option Json :=
  match tr (task_mkRequest method path json_body timeout) with
  | .ok resp =>
      if resp.status_code = 204 ∨ resp.content = "" then
        (resp.status_code, none)
      else
        match resp.jsonResult with
        | some j => (resp.status_code, j)
        | none => (resp.status_code, none)
  | .raise e =>
      (0, some (Json.obj [("error", Json.str e),
                          ("url", Json.str (TASK_API_BASE ++ path)),
                          ("method", Json.str method),
                          ("body", jsonOfBody json_body)]))

/-- Modelled from the spec: tool get_tasks, the tasks counterpart of
get_movies. -/
def get_tasks (tr : Transport) : String :=
  let r := task_api_request tr "GET" "/tasks"
  if r.1 = 0 then
    "Transport error while calling /tasks:\n" ++ pretty (.parsed r.2)
  else if 400 ≤ r.1 then
    "Error " ++ toString r.1 ++ " from /tasks:\n" ++ pretty (.parsed r.2)
  else
    pretty (.parsed r.2)

/-- Modelled from the spec: tool get_task, the tasks counterpart of
get_movie. -/
def get_task (tr : Transport) (task_id : Int) : String :=
  let r := task_api_request tr "GET" ("/tasks/" ++ toString task_id)
  if r.1 = 0 then
    "Transport error while calling /tasks/" ++ toString task_id ++ ":\n"
      ++ pretty (.parsed r.2)
  else if r.1 = 404 then
    "Task " ++ toString task_id ++ " not found."
  else if 400 ≤ r.1 then
    "Error " ++ toString r.1 ++ " from /tasks/" ++ toString task_id ++ ":\n"
      ++ pretty (.parsed r.2)
  else
    pretty (.parsed r.2)

/-- Modelled from the spec: tool create_task(title, done = false), the tasks
counterpart of create_movie with attribute shape (title, done). -/
def create_task (tr : Transport) (title : String) (done : Bool := false) : String :=
  let body : Jobj := [("title", Json.str title), ("done", Json.bool done)]
  let r := task_api_request tr "POST" "/tasks" (some body)
  if r.1 = 0 then
    "Transport error while POST /tasks:\n" ++ pretty (.parsed r.2)
  else if 400 ≤ r.1 then
    "Error " ++ toString r.1 ++ " creating task:\n" ++ pretty (.parsed r.2)
  else
    "Task created:\n" ++ pretty (.parsed r.2)

/-- Modelled from the spec: tool update_task(task_id, title, done = false),
the tasks counterpart of update_movie. -/
def update_task (tr : Transport) (task_id : Int) (title : String)
    (done : Bool := false) : String :=
  let body : Jobj := [("title", Json.str title), ("done", Json.bool done)]
  let r := task_api_request tr "PUT" ("/tasks/" ++ toString task_id) (some body)
  if r.1 = 0 then
    "Transport error while PUT /tasks/" ++ toString task_id ++ ":\n"
      ++ pretty (.parsed r.2)
  else if r.1 = 404 then
    "Task " ++ toString task_id ++ " not found."
  else if 400 ≤ r.1 then
    "Error " ++ toString r.1 ++ " updating task " ++ toString task_id ++ ":\n"
      ++ pretty (.parsed r.2)
  else
    "Task updated:\n" ++ pretty (.parsed r.2)

/-- Modelled from the spec: tool delete_task, the tasks counterpart of
delete_movie. -/
def delete_task (tr : Transport) (task_id : Int) : String :=
  let r := task_api_request tr "DELETE" ("/tasks/" ++ toString task_id)
  if r.1 = 0 then
    "Transport error while DELETE /tasks/" ++ toString task_id ++ ":\n"
      ++ pretty (.parsed r.2)
  else if r.1 = 404 then
    "Task " ++ toString task_id ++ " not found."
  else if 400 ≤ r.1 then
    "Error " ++ toString r.1 ++ " deleting task " ++ toString task_id ++ ":\n"
      ++ pretty (.parsed r.2)
  else
    "Task " ++ toString task_id ++ " deleted (status " ++ toString r.1 ++ ")."

/-! ## Concrete transports used as test inputs -/

/-- A transport on which every request raises with message "boom". -/
def trBoom : Transport := fun _ => .raise "boom"

/-- A transport answering 200 with the JSON object body of an empty dict. -/
def tr200 : Transport := fun _ => .ok ⟨200, "\x7b\x7d", some (Json.obj [])⟩

/-- A transport answering 404 with a detail body. -/
def tr404 : Transport := fun _ => .ok ⟨404, "d", some (Json.obj [("detail", Json.str "Not Found")])⟩

/-- A transport answering 204 No Content with an empty body. -/
def tr204 : Transport := fun _ => .ok ⟨204, "", none⟩

/-- A transport answering 304 Not Modified with an empty body. -/
def tr304 : Transport := fun _ => .ok ⟨304, "", none⟩

/-- A transport answering 500 with a detail body. -/
def tr500 : Transport := fun _ => .ok ⟨500, "d", some (Json.obj [("detail", Json.str "boom")])⟩

/-- A transport answering 422 with a detail body. -/
def tr422 : Transport := fun _ => .ok ⟨422, "d", some (Json.obj [("detail", Json.str "invalid year")])⟩

example : get_movie tr404 42 = "Movie 42 not found." := by rfl

example : delete_movie tr204 7 = "Movie 7 deleted (status 204)." := by rfl

example : get_movies tr500 = "Error 500 from /movies:\n\x7b\n  \"detail\": \"boom\"\n\x7d" := by rfl

/-- A transport answering 200 with a non-empty body that is not valid JSON,
so resp.json() raises. -/
def trBadJson : Transport := fun _ => .ok ⟨200, "x", none⟩

/-- The diagnostic payload api_request substitutes on a transport exception:
the error message, the attempted URL, the method and the submitted body. -/
def transportErrBody (base e method path : String) (json_body : Option Jobj) : Json :=
  Json.obj [("error", Json.str e), ("url", Json.str (base ++ path)),
            ("method", Json.str method), ("body", jsonOfBody json_body)]

/-! ## Claim theorems -/

/-- C1: the Gateway never raises: api_request is a total function into
(status, body) pairs; whenever the transport raises, it returns status 0
with a body holding the error message, the URL, the method and the submitted
body; and under a raising transport every tool's rendered text is the
transport-error message, which begins with the literal substring
"Transport error". -/
theorem gateway_transport_failure_contract :
    (∀ tr m p jb tmo, api_request tr m p jb tmo
       = ((api_request tr m p jb tmo).1, (api_request tr m p jb tmo).2))
    ∧ (∀ tr m p jb tmo e, tr (mkRequest m p jb tmo) = TransportResult.raise e →
        api_request tr m p jb tmo
          = (0, some (transportErrBody MOVIE_API_BASE e m p jb)))
    ∧ ∀ tr e, (∀ req, tr req = TransportResult.raise e) →
        (get_movies tr = "Transport error while calling /movies:\n"
           ++ pretty (.parsed (some (transportErrBody MOVIE_API_BASE e "GET" "/movies" none))))
        ∧ (∀ id : Int, get_movie tr id
             = "Transport error while calling /movies/" ++ toString id ++ ":\n"
               ++ pretty (.parsed (some (transportErrBody MOVIE_API_BASE e "GET"
                    ("/movies/" ++ toString id) none))))
        ∧ (∀ (t : String) (y : Int) (ra : FloatLit), create_movie tr t y ra
             = "Transport error while POST /movies:\n"
               ++ pretty (.parsed (some (transportErrBody MOVIE_API_BASE e "POST" "/movies"
                    (some [("title", Json.str t), ("year", Json.num (toString y)),
                           ("rating", Json.num ra)])))))
        ∧ (∀ (id : Int) (t : String) (y : Int) (ra : FloatLit), update_movie tr id t y ra
             = "Transport error while PUT /movies/" ++ toString id ++ ":\n"
               ++ pretty (.parsed (some (transportErrBody MOVIE_API_BASE e "PUT"
                    ("/movies/" ++ toString id)
                    (some [("title", Json.str t), ("year", Json.num (toString y)),
                           ("rating", Json.num ra)])))))
        ∧ (∀ id : Int, delete_movie tr id
             = "Transport error while DELETE /movies/" ++ toString id ++ ":\n"
               ++ pretty (.parsed (some (transportErrBody MOVIE_API_BASE e "DELETE"
                    ("/movies/" ++ toString id) none))))
        ∧ (get_tasks tr = "Transport error while calling /tasks:\n"
             ++ pretty (.parsed (some (transportErrBody TASK_API_BASE e "GET" "/tasks" none))))
        ∧ (∀ id : Int, get_task tr id
             = "Transport error while calling /tasks/" ++ toString id ++ ":\n"
               ++ pretty (.parsed (some (transportErrBody TASK_API_BASE e "GET"
                    ("/tasks/" ++ toString id) none))))
        ∧ (∀ (t : String) (d : Bool), create_task tr t d
             = "Transport error while POST /tasks:\n"
               ++ pretty (.parsed (some (transportErrBody TASK_API_BASE e "POST" "/tasks"
                    (some [("title", Json.str t), ("done", Json.bool d)])))))
        ∧ (∀ (id : Int) (t : String) (d : Bool), update_task tr id t d
             = "Transport error while PUT /tasks/" ++ toString id ++ ":\n"
               ++ pretty (.parsed (some (transportErrBody TASK_API_BASE e "PUT"
                    ("/tasks/" ++ toString id)
                    (some [("title", Json.str t), ("done", Json.bool d)])))))
        ∧ (∀ id : Int, delete_task tr id
             = "Transport error while DELETE /tasks/" ++ toString id ++ ":\n"
               ++ pretty (.parsed (some (transportErrBody TASK_API_BASE e "DELETE"
                    ("/tasks/" ++ toString id) none)))) := by
  refine ⟨fun tr m p jb tmo => rfl, fun tr m p jb tmo e h => ?_, fun tr e h => ?_⟩
  · simp [api_request, h, transportErrBody]
  · refine ⟨?_, fun id => ?_, fun t y ra => ?_, fun id t y ra => ?_, fun id => ?_,
      ?_, fun id => ?_, fun t d => ?_, fun id t d => ?_, fun id => ?_⟩
    · simp [get_movies, api_request, h, transportErrBody]
    · simp [get_movie, api_request, h, transportErrBody]
    · simp [create_movie, api_request, h, transportErrBody]
    · simp [update_movie, api_request, h, transportErrBody]
    · simp [delete_movie, api_request, h, transportErrBody]
    · simp [get_tasks, task_api_request, h, transportErrBody]
    · simp [get_task, task_api_request, h, transportErrBody]
    · simp [create_task, task_api_request, h, transportErrBody]
    · simp [update_task, task_api_request, h, transportErrBody]
    · simp [delete_task, task_api_request, h, transportErrBody]

/-- Witness for C1 at the concrete always-raising transport trBoom. -/
theorem gateway_transport_failure_contract_witness :
    api_request trBoom "GET" "/movies" none 30
      = (0, some (transportErrBody MOVIE_API_BASE "boom" "GET" "/movies" none))
    ∧ get_movies trBoom = "Transport error while calling /movies:\n"
        ++ pretty (.parsed (some (transportErrBody MOVIE_API_BASE "boom" "GET" "/movies" none))) :=
  ⟨gateway_transport_failure_contract.2.1 trBoom "GET" "/movies" none 30 "boom" rfl,
   (gateway_transport_failure_contract.2.2 trBoom "boom" (fun _ => rfl)).1⟩

/-- C4: when the transport delivers a response with status 204 or an empty
body, api_request returns the real status with body none; and when the body
fails to parse as JSON, api_request likewise returns the real status with
body none — the parse failure is swallowed and the caller cannot tell the
two cases apart. -/
theorem api_request_empty_and_nonjson_bodies :
    ∀ tr m p jb tmo resp, tr (mkRequest m p jb tmo) = TransportResult.ok resp →
      ((resp.status_code = 204 ∨ resp.content = "") →
         api_request tr m p jb tmo = (resp.status_code, none))
      ∧ (resp.jsonResult = none →
         api_request tr m p jb tmo = (resp.status_code, none)) := by
  intro tr m p jb tmo resp h
  constructor
  · intro hc
    rcases hc with hc | hc <;> simp [api_request, h, hc]
  · intro hj
    by_cases hc : resp.status_code = 204 ∨ resp.content = ""
    · rcases hc with hc | hc <;> simp [api_request, h, hc]
    · simp [api_request, h, hc, hj]

/-- Witness for C4 at a concrete 204 empty response and a concrete 200
response whose body does not parse as JSON. -/
theorem api_request_empty_and_nonjson_bodies_witness :
    api_request tr204 "GET" "/movies" none 30 = (204, none)
    ∧ api_request trBadJson "GET" "/movies" none 30 = (200, none) :=
  ⟨(api_request_empty_and_nonjson_bodies tr204 "GET" "/movies" none 30
      ⟨204, "", none⟩ rfl).1 (Or.inl rfl),
   (api_request_empty_and_nonjson_bodies trBadJson "GET" "/movies" none 30
      ⟨200, "x", none⟩ rfl).2 rfl⟩

/-- C2: the tool surface exposes the same five CRUD operations for tasks as
for movies: get_tasks, get_task, create_task (with done defaulting to
false), update_task and delete_task all exist and are invocable, here
evaluated against a concrete 200-response transport. -/
theorem task_tool_surface :
    get_tasks tr200 = "\x7b\x7d"
    ∧ get_task tr200 5 = "\x7b\x7d"
    ∧ create_task tr200 "t" true = "Task created:\n\x7b\x7d"
    ∧ create_task tr200 "t" = create_task tr200 "t" false
    ∧ update_task tr200 5 "t" false = "Task updated:\n\x7b\x7d"
    ∧ delete_task tr200 5 = "Task 5 deleted (status 200)." :=
  ⟨rfl, rfl, rfl, rfl, rfl, rfl⟩

/-- C3: for the id-addressed operations, a Gateway status of 404 renders
exactly "(Resource) (id) not found." with nothing appended, for all six of
get/update/delete on movies and tasks. -/
theorem notfound_404_rendering :
    (∀ tr (id : Int), (api_request tr "GET" ("/movies/" ++ toString id)).1 = 404 →
       get_movie tr id = "Movie " ++ toString id ++ " not found.")
    ∧ (∀ tr (id : Int) (t : String) (y : Int) (ra : FloatLit),
        (api_request tr "PUT" ("/movies/" ++ toString id)
          (some [("title", Json.str t), ("year", Json.num (toString y)),
                 ("rating", Json.num ra)])).1 = 404 →
        update_movie tr id t y ra = "Movie " ++ toString id ++ " not found.")
    ∧ (∀ tr (id : Int), (api_request tr "DELETE" ("/movies/" ++ toString id)).1 = 404 →
        delete_movie tr id = "Movie " ++ toString id ++ " not found.")
    ∧ (∀ tr (id : Int), (task_api_request tr "GET" ("/tasks/" ++ toString id)).1 = 404 →
        get_task tr id = "Task " ++ toString id ++ " not found.")
    ∧ (∀ tr (id : Int) (t : String) (d : Bool),
        (task_api_request tr "PUT" ("/tasks/" ++ toString id)
          (some [("title", Json.str t), ("done", Json.bool d)])).1 = 404 →
        update_task tr id t d = "Task " ++ toString id ++ " not found.")
    ∧ (∀ tr (id : Int), (task_api_request tr "DELETE" ("/tasks/" ++ toString id)).1 = 404 →
        delete_task tr id = "Task " ++ toString id ++ " not found.") := by
  refine ⟨fun tr id h => ?_, fun tr id t y ra h => ?_, fun tr id h => ?_,
    fun tr id h => ?_, fun tr id t d h => ?_, fun tr id h => ?_⟩
  · simp [get_movie, h]
  · simp [update_movie, h]
  · simp [delete_movie, h]
  · simp [get_task, h]
  · simp [update_task, h]
  · simp [delete_task, h]

/-- Witness for C3: a backend 404 on get_movie(42) renders exactly
"Movie 42 not found.", and on delete_task(7) exactly "Task 7 not found.". -/
theorem notfound_404_rendering_witness :
    get_movie tr404 42 = "Movie 42 not found."
    ∧ delete_task tr404 7 = "Task 7 not found." :=
  ⟨(notfound_404_rendering.1 tr404 42 (by decide)).trans (by decide),
   (notfound_404_rendering.2.2.2.2.2 tr404 7 (by decide)).trans (by decide)⟩

/-- C5: on a non-zero status below 400, list and get render the bare
pretty-printed body, create renders "(Resource) created:" plus the body,
update renders "(Resource) updated:" plus the body, and delete renders
exactly "(Resource) (id) deleted (status (status)).", across both resource
kinds. -/
theorem success_branch_rendering :
    (∀ tr, (api_request tr "GET" "/movies").1 ≠ 0 →
       (api_request tr "GET" "/movies").1 < 400 →
       get_movies tr = pretty (.parsed (api_request tr "GET" "/movies").2))
    ∧ (∀ tr (id : Int), (api_request tr "GET" ("/movies/" ++ toString id)).1 ≠ 0 →
        (api_request tr "GET" ("/movies/" ++ toString id)).1 < 400 →
        get_movie tr id = pretty (.parsed (api_request tr "GET" ("/movies/" ++ toString id)).2))
    ∧ (∀ tr (t : String) (y : Int) (ra : FloatLit),
        (api_request tr "POST" "/movies"
          (some [("title", Json.str t), ("year", Json.num (toString y)),
                 ("rating", Json.num ra)])).1 ≠ 0 →
        (api_request tr "POST" "/movies"
          (some [("title", Json.str t), ("year", Json.num (toString y)),
                 ("rating", Json.num ra)])).1 < 400 →
        create_movie tr t y ra = "Movie created:\n"
          ++ pretty (.parsed (api_request tr "POST" "/movies"
               (some [("title", Json.str t), ("year", Json.num (toString y)),
                      ("rating", Json.num ra)])).2))
    ∧ (∀ tr (id : Int) (t : String) (y : Int) (ra : FloatLit),
        (api_request tr "PUT" ("/movies/" ++ toString id)
          (some [("title", Json.str t), ("year", Json.num (toString y)),
                 ("rating", Json.num ra)])).1 ≠ 0 →
        (api_request tr "PUT" ("/movies/" ++ toString id)
          (some [("title", Json.str t), ("year", Json.num (toString y)),
                 ("rating", Json.num ra)])).1 < 400 →
        update_movie tr id t y ra = "Movie updated:\n"
          ++ pretty (.parsed (api_request tr "PUT" ("/movies/" ++ toString id)
               (some [("title", Json.str t), ("year", Json.num (toString y)),
                      ("rating", Json.num ra)])).2))
    ∧ (∀ tr (id : Int), (api_request tr "DELETE" ("/movies/" ++ toString id)).1 ≠ 0 →
        (api_request tr "DELETE" ("/movies/" ++ toString id)).1 < 400 →
        delete_movie tr id = "Movie " ++ toString id ++ " deleted (status "
          ++ toString (api_request tr "DELETE" ("/movies/" ++ toString id)).1 ++ ").")
    ∧ (∀ tr, (task_api_request tr "GET" "/tasks").1 ≠ 0 →
        (task_api_request tr "GET" "/tasks").1 < 400 →
        get_tasks tr = pretty (.parsed (task_api_request tr "GET" "/tasks").2))
    ∧ (∀ tr (id : Int), (task_api_request tr "GET" ("/tasks/" ++ toString id)).1 ≠ 0 →
        (task_api_request tr "GET" ("/tasks/" ++ toString id)).1 < 400 →
        get_task tr id = pretty (.parsed (task_api_request tr "GET" ("/tasks/" ++ toString id)).2))
    ∧ (∀ tr (t : String) (d : Bool),
        (task_api_request tr "POST" "/tasks"
          (some [("title", Json.str t), ("done", Json.bool d)])).1 ≠ 0 →
        (task_api_request tr "POST" "/tasks"
          (some [("title", Json.str t), ("done", Json.bool d)])).1 < 400 →
        create_task tr t d = "Task created:\n"
          ++ pretty (.parsed (task_api_request tr "POST" "/tasks"
               (some [("title", Json.str t), ("done", Json.bool d)])).2))
    ∧ (∀ tr (id : Int) (t : String) (d : Bool),
        (task_api_request tr "PUT" ("/tasks/" ++ toString id)
          (some [("title", Json.str t), ("done", Json.bool d)])).1 ≠ 0 →
        (task_api_request tr "PUT" ("/tasks/" ++ toString id)
          (some [("title", Json.str t), ("done", Json.bool d)])).1 < 400 →
        update_task tr id t d = "Task updated:\n"
          ++ pretty (.parsed (task_api_request tr "PUT" ("/tasks/" ++ toString id)
               (some [("title", Json.str t), ("done", Json.bool d)])).2))
    ∧ (∀ tr (id : Int), (task_api_request tr "DELETE" ("/tasks/" ++ toString id)).1 ≠ 0 →
        (task_api_request tr "DELETE" ("/tasks/" ++ toString id)).1 < 400 →
        delete_task tr id = "Task " ++ toString id ++ " deleted (status "
          ++ toString (task_api_request tr "DELETE" ("/tasks/" ++ toString id)).1 ++ ").") := by
  refine ⟨fun tr h0 h4 => ?_, fun tr id h0 h4 => ?_, fun tr t y ra h0 h4 => ?_,
    fun tr id t y ra h0 h4 => ?_, fun tr id h0 h4 => ?_, fun tr h0 h4 => ?_,
    fun tr id h0 h4 => ?_, fun tr t d h0 h4 => ?_, fun tr id t d h0 h4 => ?_,
    fun tr id h0 h4 => ?_⟩
  · simp [get_movies, h0, Nat.not_le.mpr h4]
  · have h404 : (api_request tr "GET" ("/movies/" ++ toString id)).1 ≠ 404 := by omega
    simp [get_movie, h0, h404, Nat.not_le.mpr h4]
  · simp [create_movie, h0, Nat.not_le.mpr h4]
  · have h404 : (api_request tr "PUT" ("/movies/" ++ toString id)
        (some [("title", Json.str t), ("year", Json.num (toString y)),
               ("rating", Json.num ra)])).1 ≠ 404 := by omega
    simp [update_movie, h0, h404, Nat.not_le.mpr h4]
  · have h404 : (api_request tr "DELETE" ("/movies/" ++ toString id)).1 ≠ 404 := by omega
    simp [delete_movie, h0, h404, Nat.not_le.mpr h4]
  · simp [get_tasks, h0, Nat.not_le.mpr h4]
  · have h404 : (task_api_request tr "GET" ("/tasks/" ++ toString id)).1 ≠ 404 := by omega
    simp [get_task, h0, h404, Nat.not_le.mpr h4]
  · simp [create_task, h0, Nat.not_le.mpr h4]
  · have h404 : (task_api_request tr "PUT" ("/tasks/" ++ toString id)
        (some [("title", Json.str t), ("done", Json.bool d)])).1 ≠ 404 := by omega
    simp [update_task, h0, h404, Nat.not_le.mpr h4]
  · have h404 : (task_api_request tr "DELETE" ("/tasks/" ++ toString id)).1 ≠ 404 := by omega
    simp [delete_task, h0, h404, Nat.not_le.mpr h4]

/-- Witness for C5: a 200 list renders the bare body, a 201-free concrete
create renders the created confirmation, and delete_movie(7) on status 204
renders "Movie 7 deleted (status 204).". -/
theorem success_branch_rendering_witness :
    get_movies tr200 = pretty (.parsed (api_request tr200 "GET" "/movies").2)
    ∧ create_movie tr200 "Dune" 2021 "8.0" = "Movie created:\n\x7b\x7d"
    ∧ delete_movie tr204 7 = "Movie 7 deleted (status 204)." :=
  ⟨success_branch_rendering.1 tr200 (by decide) (by decide),
   (success_branch_rendering.2.2.1 tr200 "Dune" 2021 "8.0" (by decide) (by decide)).trans
     (by decide),
   (success_branch_rendering.2.2.2.2.1 tr204 7 (by decide) (by decide)).trans (by decide)⟩

/-- C6 counterexample: the claim says a 500 on list renders text starting
with "Error 500 listing movies:", but get_movies under a 500 transport
renders "Error 500 from /movies:" followed by the body, so the claimed
verb-ing form is not a prefix of the rendered text. -/
theorem error_rendering_verbing_counterexample :
    get_movies tr500 = "Error 500 from /movies:\n\x7b\n  \"detail\": \"boom\"\n\x7d"
    ∧ get_movies tr500
        ≠ "Error 500 listing movies:\n" ++ pretty (.parsed (api_request tr500 "GET" "/movies").2) :=
  ⟨rfl, by decide⟩

/-- C6 (amended): on a status at least 400 not taken by the transport-failure
or not-found rules, create, update and delete render
"Error (status) (verb-ing) (resource)[ (id)]:" followed by the
pretty-printed body, while list and get render
"Error (status) from (path):" followed by the pretty-printed body. -/
theorem error_rendering_amended :
    (∀ tr, 400 ≤ (api_request tr "GET" "/movies").1 →
       get_movies tr = "Error " ++ toString (api_request tr "GET" "/movies").1
         ++ " from /movies:\n" ++ pretty (.parsed (api_request tr "GET" "/movies").2))
    ∧ (∀ tr (id : Int), 400 ≤ (api_request tr "GET" ("/movies/" ++ toString id)).1 →
        (api_request tr "GET" ("/movies/" ++ toString id)).1 ≠ 404 →
        get_movie tr id = "Error " ++ toString (api_request tr "GET" ("/movies/" ++ toString id)).1
          ++ " from /movies/" ++ toString id ++ ":\n"
          ++ pretty (.parsed (api_request tr "GET" ("/movies/" ++ toString id)).2))
    ∧ (∀ tr (t : String) (y : Int) (ra : FloatLit),
        400 ≤ (api_request tr "POST" "/movies"
          (some [("title", Json.str t), ("year", Json.num (toString y)),
                 ("rating", Json.num ra)])).1 →
        create_movie tr t y ra = "Error "
          ++ toString (api_request tr "POST" "/movies"
               (some [("title", Json.str t), ("year", Json.num (toString y)),
                      ("rating", Json.num ra)])).1
          ++ " creating movie:\n"
          ++ pretty (.parsed (api_request tr "POST" "/movies"
               (some [("title", Json.str t), ("year", Json.num (toString y)),
                      ("rating", Json.num ra)])).2))
    ∧ (∀ tr (id : Int) (t : String) (y : Int) (ra : FloatLit),
        400 ≤ (api_request tr "PUT" ("/movies/" ++ toString id)
          (some [("title", Json.str t), ("year", Json.num (toString y)),
                 ("rating", Json.num ra)])).1 →
        (api_request tr "PUT" ("/movies/" ++ toString id)
          (some [("title", Json.str t), ("year", Json.num (toString y)),
                 ("rating", Json.num ra)])).1 ≠ 404 →
        update_movie tr id t y ra = "Error "
          ++ toString (api_request tr "PUT" ("/movies/" ++ toString id)
               (some [("title", Json.str t), ("year", Json.num (toString y)),
                      ("rating", Json.num ra)])).1
          ++ " updating movie " ++ toString id ++ ":\n"
          ++ pretty (.parsed (api_request tr "PUT" ("/movies/" ++ toString id)
               (some [("title", Json.str t), ("year", Json.num (toString y)),
                      ("rating", Json.num ra)])).2))
    ∧ (∀ tr (id : Int), 400 ≤ (api_request tr "DELETE" ("/movies/" ++ toString id)).1 →
        (api_request tr "DELETE" ("/movies/" ++ toString id)).1 ≠ 404 →
        delete_movie tr id = "Error "
          ++ toString (api_request tr "DELETE" ("/movies/" ++ toString id)).1
          ++ " deleting movie " ++ toString id ++ ":\n"
          ++ pretty (.parsed (api_request tr "DELETE" ("/movies/" ++ toString id)).2))
    ∧ (∀ tr, 400 ≤ (task_api_request tr "GET" "/tasks").1 →
        get_tasks tr = "Error " ++ toString (task_api_request tr "GET" "/tasks").1
          ++ " from /tasks:\n" ++ pretty (.parsed (task_api_request tr "GET" "/tasks").2))
    ∧ (∀ tr (id : Int), 400 ≤ (task_api_request tr "GET" ("/tasks/" ++ toString id)).1 →
        (task_api_request tr "GET" ("/tasks/" ++ toString id)).1 ≠ 404 →
        get_task tr id = "Error "
          ++ toString (task_api_request tr "GET" ("/tasks/" ++ toString id)).1
          ++ " from /tasks/" ++ toString id ++ ":\n"
          ++ pretty (.parsed (task_api_request tr "GET" ("/tasks/" ++ toString id)).2))
    ∧ (∀ tr (t : String) (d : Bool),
        400 ≤ (task_api_request tr "POST" "/tasks"
          (some [("title", Json.str t), ("done", Json.bool d)])).1 →
        create_task tr t d = "Error "
          ++ toString (task_api_request tr "POST" "/tasks"
               (some [("title", Json.str t), ("done", Json.bool d)])).1
          ++ " creating task:\n"
          ++ pretty (.parsed (task_api_request tr "POST" "/tasks"
               (some [("title", Json.str t), ("done", Json.bool d)])).2))
    ∧ (∀ tr (id : Int) (t : String) (d : Bool),
        400 ≤ (task_api_request tr "PUT" ("/tasks/" ++ toString id)
          (some [("title", Json.str t), ("done", Json.bool d)])).1 →
        (task_api_request tr "PUT" ("/tasks/" ++ toString id)
          (some [("title", Json.str t), ("done", Json.bool d)])).1 ≠ 404 →
        update_task tr id t d = "Error "
          ++ toString (task_api_request tr "PUT" ("/tasks/" ++ toString id)
               (some [("title", Json.str t), ("done", Json.bool d)])).1
          ++ " updating task " ++ toString id ++ ":\n"
          ++ pretty (.parsed (task_api_request tr "PUT" ("/tasks/" ++ toString id)
               (some [("title", Json.str t), ("done", Json.bool d)])).2))
    ∧ (∀ tr (id : Int), 400 ≤ (task_api_request tr "DELETE" ("/tasks/" ++ toString id)).1 →
        (task_api_request tr "DELETE" ("/tasks/" ++ toString id)).1 ≠ 404 →
        delete_task tr id = "Error "
          ++ toString (task_api_request tr "DELETE" ("/tasks/" ++ toString id)).1
          ++ " deleting task " ++ toString id ++ ":\n"
          ++ pretty (.parsed (task_api_request tr "DELETE" ("/tasks/" ++ toString id)).2)) := by
  refine ⟨fun tr h4 => ?_, fun tr id h4 h404 => ?_, fun tr t y ra h4 => ?_,
    fun tr id t y ra h4 h404 => ?_, fun tr id h4 h404 => ?_, fun tr h4 => ?_,
    fun tr id h4 h404 => ?_, fun tr t d h4 => ?_, fun tr id t d h4 h404 => ?_,
    fun tr id h4 h404 => ?_⟩
  · have h0 : (api_request tr "GET" "/movies").1 ≠ 0 := by omega
    simp [get_movies, h0, h4]
  · have h0 : (api_request tr "GET" ("/movies/" ++ toString id)).1 ≠ 0 := by omega
    simp [get_movie, h0, h4, h404]
  · have h0 : (api_request tr "POST" "/movies"
        (some [("title", Json.str t), ("year", Json.num (toString y)),
               ("rating", Json.num ra)])).1 ≠ 0 := by omega
    simp [create_movie, h0, h4]
  · have h0 : (api_request tr "PUT" ("/movies/" ++ toString id)
        (some [("title", Json.str t), ("year", Json.num (toString y)),
               ("rating", Json.num ra)])).1 ≠ 0 := by omega
    simp [update_movie, h0, h4, h404]
  · have h0 : (api_request tr "DELETE" ("/movies/" ++ toString id)).1 ≠ 0 := by omega
    simp [delete_movie, h0, h4, h404]
  · have h0 : (task_api_request tr "GET" "/tasks").1 ≠ 0 := by omega
    simp [get_tasks, h0, h4]
  · have h0 : (task_api_request tr "GET" ("/tasks/" ++ toString id)).1 ≠ 0 := by omega
    simp [get_task, h0, h4, h404]
  · have h0 : (task_api_request tr "POST" "/tasks"
        (some [("title", Json.str t), ("done", Json.bool d)])).1 ≠ 0 := by omega
    simp [create_task, h0, h4]
  · have h0 : (task_api_request tr "PUT" ("/tasks/" ++ toString id)
        (some [("title", Json.str t), ("done", Json.bool d)])).1 ≠ 0 := by omega
    simp [update_task, h0, h4, h404]
  · have h0 : (task_api_request tr "DELETE" ("/tasks/" ++ toString id)).1 ≠ 0 := by omega
    simp [delete_task, h0, h4, h404]

/-- Witness for the amended C6: a 422 on create_movie renders
"Error 422 creating movie:" plus the body, and a 500 on delete_movie
renders "Error 500 deleting movie 3:" plus the body. -/
theorem error_rendering_amended_witness :
    create_movie tr422 "T" 1999 "5.0"
      = "Error 422 creating movie:\n\x7b\n  \"detail\": \"invalid year\"\n\x7d"
    ∧ delete_movie tr500 3
      = "Error 500 deleting movie 3:\n\x7b\n  \"detail\": \"boom\"\n\x7d" :=
  ⟨(error_rendering_amended.2.2.1 tr422 "T" 1999 "5.0" (by decide)).trans (by decide),
   (error_rendering_amended.2.2.2.2.1 tr500 3 (by decide) (by decide)).trans (by decide)⟩

/-- Two transports that agree on every request carrying a JSON body (as every
create and update request does) but disagree on body-less requests; used to
exhibit that create_movie consults the transport only at its one request. -/
def trPostOnlyA : Transport := fun req =>
  if req.json_body.isSome then .ok ⟨201, "d", some (Json.obj [("id", Json.num "3")])⟩
  else .raise "x"

/-- Counterpart of trPostOnlyA differing on body-less requests. -/
def trPostOnlyB : Transport := fun req =>
  if req.json_body.isSome then .ok ⟨201, "d", some (Json.obj [("id", Json.num "3")])⟩
  else .ok ⟨500, "", none⟩

/-- C7: the JSON body a create sends to the backend has exactly the declared
attribute keys, in order, and nothing else; and the tool's outcome depends on
the transport only through that one request, so no extra host-supplied field
can reach the wire. -/
theorem create_body_exact_keys :
    (∀ (t : String) (y : Int) (ra : FloatLit),
      ([("title", Json.str t), ("year", Json.num (toString y)),
        ("rating", Json.num ra)] : Jobj).map Prod.fst = ["title", "year", "rating"]
      ∧ ∀ tr₁ tr₂ : Transport,
          tr₁ (mkRequest "POST" "/movies"
            (some [("title", Json.str t), ("year", Json.num (toString y)),
                   ("rating", Json.num ra)]) 30)
            = tr₂ (mkRequest "POST" "/movies"
                (some [("title", Json.str t), ("year", Json.num (toString y)),
                       ("rating", Json.num ra)]) 30) →
          create_movie tr₁ t y ra = create_movie tr₂ t y ra)
    ∧ (∀ (t : String) (d : Bool),
      ([("title", Json.str t), ("done", Json.bool d)] : Jobj).map Prod.fst
        = ["title", "done"]
      ∧ ∀ tr₁ tr₂ : Transport,
          tr₁ (task_mkRequest "POST" "/tasks"
            (some [("title", Json.str t), ("done", Json.bool d)]) 30)
            = tr₂ (task_mkRequest "POST" "/tasks"
                (some [("title", Json.str t), ("done", Json.bool d)]) 30) →
          create_task tr₁ t d = create_task tr₂ t d) := by
  refine ⟨fun t y ra => ⟨rfl, fun tr₁ tr₂ h => ?_⟩, fun t d => ⟨rfl, fun tr₁ tr₂ h => ?_⟩⟩
  · simp [create_movie, api_request, h]
  · simp [create_task, task_api_request, h]

/-- Witness for C7: concrete key lists, and two transports agreeing only on
POST give the same create_movie outcome. -/
theorem create_body_exact_keys_witness :
    ([("title", Json.str "Dune"), ("year", Json.num (toString (2021 : Int))),
      ("rating", Json.num "8.0")] : Jobj).map Prod.fst = ["title", "year", "rating"]
    ∧ create_movie trPostOnlyA "Dune" 2021 "8.0" = create_movie trPostOnlyB "Dune" 2021 "8.0" :=
  ⟨(create_body_exact_keys.1 "Dune" 2021 "8.0").1,
   (create_body_exact_keys.1 "Dune" 2021 "8.0").2 trPostOnlyA trPostOnlyB rfl⟩

/-- C8: rendering is total — pretty returns a string on every Python value:
on serializable values it is json.dumps with 2-space indentation and
non-ASCII preserved literally (shown on a concrete nested value), on Python
None it is "null", and on a non-serializable value it falls back to the
plain str() form. -/
theorem pretty_rendering_total :
    (∀ s, pretty (PyVal.nonSerializable s) = s)
    ∧ (∀ j, pretty (PyVal.parsed (some j)) = dumpsVal 0 j)
    ∧ pretty (PyVal.parsed none) = "null"
    ∧ dumpsVal 0 (Json.obj [("título", Json.str "café"),
        ("n", Json.arr [Json.num "1", Json.bool true])])
      = "\x7b\n  \"título\": \"café\",\n  \"n\": [\n    1,\n    true\n  ]\n\x7d" :=
  ⟨fun _ => rfl, fun _ => rfl, rfl, rfl⟩

/-- A transport that answers like tr200 on requests carrying the fixed JSON
headers and the 30-unit timeout, and raises on every other request. -/
def trFussy : Transport := fun req =>
  if req.headers = JSON_HEADERS ∧ req.timeout = 30 then
    .ok ⟨200, "\x7b\x7d", some (Json.obj [])⟩
  else .raise "bad config"

/-- C9: the JSON content-negotiation headers and the 30-unit timeout bound
are fixed configuration: every request either gateway builds carries exactly
JSON_HEADERS, and no tool invocation can vary them — any two transports that
agree on requests with these headers and timeout 30 are indistinguishable to
every tool. -/
theorem fixed_headers_and_timeout :
    (∀ m p jb tmo, (mkRequest m p jb tmo).headers = JSON_HEADERS
       ∧ (task_mkRequest m p jb tmo).headers = JSON_HEADERS)
    ∧ ∀ tr₁ tr₂ : Transport,
        (∀ req, req.headers = JSON_HEADERS → req.timeout = 30 → tr₁ req = tr₂ req) →
        (get_movies tr₁ = get_movies tr₂)
        ∧ (∀ id : Int, get_movie tr₁ id = get_movie tr₂ id)
        ∧ (∀ (t : String) (y : Int) (ra : FloatLit),
            create_movie tr₁ t y ra = create_movie tr₂ t y ra)
        ∧ (∀ (id : Int) (t : String) (y : Int) (ra : FloatLit),
            update_movie tr₁ id t y ra = update_movie tr₂ id t y ra)
        ∧ (∀ id : Int, delete_movie tr₁ id = delete_movie tr₂ id)
        ∧ (get_tasks tr₁ = get_tasks tr₂)
        ∧ (∀ id : Int, get_task tr₁ id = get_task tr₂ id)
        ∧ (∀ (t : String) (d : Bool), create_task tr₁ t d = create_task tr₂ t d)
        ∧ (∀ (id : Int) (t : String) (d : Bool),
            update_task tr₁ id t d = update_task tr₂ id t d)
        ∧ (∀ id : Int, delete_task tr₁ id = delete_task tr₂ id) := by
  refine ⟨fun m p jb tmo => ⟨rfl, rfl⟩, fun tr₁ tr₂ h =>
    ⟨?_, fun id => ?_, fun t y ra => ?_, fun id t y ra => ?_, fun id => ?_,
     ?_, fun id => ?_, fun t d => ?_, fun id t d => ?_, fun id => ?_⟩⟩
  · have key := h (mkRequest "GET" "/movies" none 30) rfl rfl
    simp [get_movies, api_request, key]
  · have key := h (mkRequest "GET" ("/movies/" ++ toString id) none 30) rfl rfl
    simp [get_movie, api_request, key]
  · have key := h (mkRequest "POST" "/movies"
      (some [("title", Json.str t), ("year", Json.num (toString y)),
             ("rating", Json.num ra)]) 30) rfl rfl
    simp [create_movie, api_request, key]
  · have key := h (mkRequest "PUT" ("/movies/" ++ toString id)
      (some [("title", Json.str t), ("year", Json.num (toString y)),
             ("rating", Json.num ra)]) 30) rfl rfl
    simp [update_movie, api_request, key]
  · have key := h (mkRequest "DELETE" ("/movies/" ++ toString id) none 30) rfl rfl
    simp [delete_movie, api_request, key]
  · have key := h (task_mkRequest "GET" "/tasks" none 30) rfl rfl
    simp [get_tasks, task_api_request, key]
  · have key := h (task_mkRequest "GET" ("/tasks/" ++ toString id) none 30) rfl rfl
    simp [get_task, task_api_request, key]
  · have key := h (task_mkRequest "POST" "/tasks"
      (some [("title", Json.str t), ("done", Json.bool d)]) 30) rfl rfl
    simp [create_task, task_api_request, key]
  · have key := h (task_mkRequest "PUT" ("/tasks/" ++ toString id)
      (some [("title", Json.str t), ("done", Json.bool d)]) 30) rfl rfl
    simp [update_task, task_api_request, key]
  · have key := h (task_mkRequest "DELETE" ("/tasks/" ++ toString id) none 30) rfl rfl
    simp [delete_task, task_api_request, key]

/-- Witness for C9: tr200 and the header/timeout-sensitive trFussy agree on
all correctly configured requests, so every tool result coincides. -/
theorem fixed_headers_and_timeout_witness :
    (mkRequest "GET" "/movies" none 30).headers = JSON_HEADERS
    ∧ get_movies tr200 = get_movies trFussy :=
  ⟨(fixed_headers_and_timeout.1 "GET" "/movies" none 30).1,
   (fixed_headers_and_timeout.2 tr200 trFussy
     (fun req h1 h2 => by simp [tr200, trFussy, h1, h2])).1⟩

/-- C10: every status strictly between 0 and 400 — informational and
redirect statuses included — takes the success branch in every movie tool:
list and get render the bare pretty-printed body, create and update their
confirmation plus body, and delete its confirmation line; only statuses 0,
404 on id-addressed operations, and those at least 400 produce error-shaped
text. -/
theorem below_400_success_branch :
    (∀ tr, 0 < (api_request tr "GET" "/movies").1 →
       (api_request tr "GET" "/movies").1 < 400 →
       get_movies tr = pretty (.parsed (api_request tr "GET" "/movies").2))
    ∧ (∀ tr (id : Int), 0 < (api_request tr "GET" ("/movies/" ++ toString id)).1 →
        (api_request tr "GET" ("/movies/" ++ toString id)).1 < 400 →
        get_movie tr id = pretty (.parsed (api_request tr "GET" ("/movies/" ++ toString id)).2))
    ∧ (∀ tr (t : String) (y : Int) (ra : FloatLit),
        0 < (api_request tr "POST" "/movies"
          (some [("title", Json.str t), ("year", Json.num (toString y)),
                 ("rating", Json.num ra)])).1 →
        (api_request tr "POST" "/movies"
          (some [("title", Json.str t), ("year", Json.num (toString y)),
                 ("rating", Json.num ra)])).1 < 400 →
        create_movie tr t y ra = "Movie created:\n"
          ++ pretty (.parsed (api_request tr "POST" "/movies"
               (some [("title", Json.str t), ("year", Json.num (toString y)),
                      ("rating", Json.num ra)])).2))
    ∧ (∀ tr (id : Int) (t : String) (y : Int) (ra : FloatLit),
        0 < (api_request tr "PUT" ("/movies/" ++ toString id)
          (some [("title", Json.str t), ("year", Json.num (toString y)),
                 ("rating", Json.num ra)])).1 →
        (api_request tr "PUT" ("/movies/" ++ toString id)
          (some [("title", Json.str t), ("year", Json.num (toString y)),
                 ("rating", Json.num ra)])).1 < 400 →
        update_movie tr id t y ra = "Movie updated:\n"
          ++ pretty (.parsed (api_request tr "PUT" ("/movies/" ++ toString id)
               (some [("title", Json.str t), ("year", Json.num (toString y)),
                      ("rating", Json.num ra)])).2))
    ∧ (∀ tr (id : Int), 0 < (api_request tr "DELETE" ("/movies/" ++ toString id)).1 →
        (api_request tr "DELETE" ("/movies/" ++ toString id)).1 < 400 →
        delete_movie tr id = "Movie " ++ toString id ++ " deleted (status "
          ++ toString (api_request tr "DELETE" ("/movies/" ++ toString id)).1 ++ ").") := by
  refine ⟨fun tr hp h4 => ?_, fun tr id hp h4 => ?_, fun tr t y ra hp h4 => ?_,
    fun tr id t y ra hp h4 => ?_, fun tr id hp h4 => ?_⟩
  · have h0 : (api_request tr "GET" "/movies").1 ≠ 0 := by omega
    simp [get_movies, h0, Nat.not_le.mpr h4]
  · have h0 : (api_request tr "GET" ("/movies/" ++ toString id)).1 ≠ 0 := by omega
    have h404 : (api_request tr "GET" ("/movies/" ++ toString id)).1 ≠ 404 := by omega
    simp [get_movie, h0, h404, Nat.not_le.mpr h4]
  · have h0 : (api_request tr "POST" "/movies"
        (some [("title", Json.str t), ("year", Json.num (toString y)),
               ("rating", Json.num ra)])).1 ≠ 0 := by omega
    simp [create_movie, h0, Nat.not_le.mpr h4]
  · have h0 : (api_request tr "PUT" ("/movies/" ++ toString id)
        (some [("title", Json.str t), ("year", Json.num (toString y)),
               ("rating", Json.num ra)])).1 ≠ 0 := by omega
    have h404 : (api_request tr "PUT" ("/movies/" ++ toString id)
        (some [("title", Json.str t), ("year", Json.num (toString y)),
               ("rating", Json.num ra)])).1 ≠ 404 := by omega
    simp [update_movie, h0, h404, Nat.not_le.mpr h4]
  · have h0 : (api_request tr "DELETE" ("/movies/" ++ toString id)).1 ≠ 0 := by omega
    have h404 : (api_request tr "DELETE" ("/movies/" ++ toString id)).1 ≠ 404 := by omega
    simp [delete_movie, h0, h404, Nat.not_le.mpr h4]

/-- Witness for C10 at the redirect status 304: get_movies renders the bare
pretty-printed none body, and delete_movie(7) renders its confirmation with
the real status. -/
theorem below_400_success_branch_witness :
    get_movies tr304 = "null"
    ∧ delete_movie tr304 7 = "Movie 7 deleted (status 304)." :=
  ⟨(below_400_success_branch.1 tr304 (by decide) (by decide)).trans (by decide),
   (below_400_success_branch.2.2.2.2 tr304 7 (by decide) (by decide)).trans (by decide)⟩

end BasicMcp
